import Mathlib

/-!
Shallow embedding of the Apple Music download-and-deliver pipeline
(src/bot/providers/apple/{downloader,utils,metadata,apple,uploader}.py and
src/bot/helpers/uploader.py), together with theorems settling the frozen
claims about its specification.
-/

namespace AMDL

/-! ## Output monitor (src/bot/providers/apple/downloader.py) -/

/-- Python str.strip(): drop leading and trailing whitespace. -/
def pyStrip (s : String) : String :=
  String.mk (((s.toList.dropWhile Char.isWhitespace).reverse.dropWhile
    Char.isWhitespace).reverse)

/-- Decimal value of a digit run, as Python int() of the matched group. -/
def digitsToNat (ds : List Char) : Nat :=
  ds.foldl (fun a c => a * 10 + (c.toNat - 48)) 0

/-- Leftmost match of the regular expression (\d+)% : the first position whose
maximal digit run is immediately followed by a percent sign. -/
def parseProgressAux : List Char → Option Nat
  | [] => none
  | c :: rest =>
    if c.isDigit then
      match (c :: rest).dropWhile Char.isDigit with
      | '%' :: _ => some (digitsToNat ((c :: rest).takeWhile Char.isDigit))
      | _ => parseProgressAux rest
    else parseProgressAux rest

/-- Embedding of _parse_progress (downloader.py:100-103): extract the progress
percentage from an output line, None when no percentage token occurs. -/
def parse_progress (line : String) : Option Nat :=
  parseProgressAux line.toList

/-- State threaded through the output-monitoring loop of
_monitor_download_process: captured stdout lines, the last parsed progress
value, and the sequence of progress notifications sent so far. -/
structure MonState where
  chunks : List String
  lastProgress : Nat
  emitted : List Nat
deriving Repr, DecidableEq

def initMonState : MonState := { chunks := [], lastProgress := 0, emitted := [] }

/-- Embedding of _update_progress (downloader.py:106-115): the notification is
sent only when the value is a multiple of 5. -/
def update_progress (emitted : List Nat) (progress : Nat) : List Nat :=
  if progress % 5 == 0 then emitted ++ [progress] else emitted

/-- One iteration of the while loop of _monitor_download_process
(downloader.py:69-81): strip the line, append it to the captured chunks, and,
when a user message sink is present, parse a progress value; a truthy value
(non-None and non-zero) differing from the last parsed value triggers
_update_progress and replaces last_progress. -/
def stepMonitor (hasBotMsg : Bool) (st : MonState) (line : String) : MonState :=
  let lineStr := pyStrip line
  let st1 : MonState := { st with chunks := st.chunks ++ [lineStr] }
  if hasBotMsg then
    match parse_progress lineStr with
    | some p =>
      if p ≠ 0 ∧ p ≠ st1.lastProgress then
        { st1 with emitted := update_progress st1.emitted p, lastProgress := p }
      else st1
    | none => st1
  else st1

/-- The whole streaming phase of _monitor_download_process over the list of
stdout lines, in arrival order. -/
def runMonitor (hasBotMsg : Bool) (lines : List String) : MonState :=
  lines.foldl (stepMonitor hasBotMsg) initMonState

/-- Result dictionary of _monitor_download_process. -/
structure DlResult where
  success : Bool
  error : String
deriving Repr, DecidableEq

/-- Python list slice l[-n:]. -/
def lastN (n : Nat) (l : List String) : List String := l.drop (l.length - n)

/-- Embedding of _monitor_download_process (downloader.py:60-97): consume the
stream, then check the exit code; non-zero fails with the stripped stderr text
or, when that is empty, the last five captured stdout lines. -/
def monitor_download_process (hasBotMsg : Bool) (lines : List String)
    (stderrText : String) (exitCode : Int) : DlResult :=
  let st := runMonitor hasBotMsg lines
  if exitCode ≠ 0 then
    let errorOutput :=
      if pyStrip stderrText ≠ "" then pyStrip stderrText
      else String.intercalate "\n" (lastN 5 st.chunks)
    { success := false, error := errorOutput }
  else { success := true, error := "" }

/-- Naive substring test on character lists. -/
def isInfixB (needle : List Char) : List Char → Bool
  | [] => needle.isEmpty
  | c :: t => needle.isPrefixOf (c :: t) || isInfixB needle t

/-- Python membership test needle in hay on strings. -/
def containsSub (needle hay : String) : Bool :=
  isInfixB needle.toList hay.toList

/-- Modelled from the spec: the fixed fatal-error patterns the Output
Classifier is said to match (separator-not-found, DRM-protection,
invalid-token, storefront-mismatch, HTTP-403-equivalent). No such pattern
list exists anywhere in src; the monitor in downloader.py never matches
output lines against error patterns. -/
def fatalPatterns : List String :=
  ["separator not found", "DRM", "invalid media-user-token", "storefront", "403"]

/-- A line matching one of the spec's fatal-error patterns. -/
def isFatalLine (line : String) : Bool :=
  fatalPatterns.any (fun p => containsSub p line)

/-! ## Option-to-flag mapping (src/bot/providers/apple/utils.py 137-166) -/

/-- Value of a user-supplied option: a Python bool, or anything else already
rendered through str(value). -/
inductive OptVal where
  | bool (b : Bool)
  | str (s : String)
deriving Repr, DecidableEq

/-- The fixed option_map of build_apple_options. -/
def option_map : List (String × String) :=
  [("aac", "--aac"), ("aac-type", "--aac-type"), ("alac-max", "--alac-max"),
   ("all-album", "--all-album"), ("atmos", "--atmos"),
   ("atmos-max", "--atmos-max"), ("debug", "--debug"),
   ("mv-audio-type", "--mv-audio-type"), ("mv-max", "--mv-max"),
   ("select", "--select"), ("song", "--song")]

/-- Dictionary lookup key in option_map / option_map[key]. -/
def lookupFlag (key : String) : Option String :=
  (option_map.find? (fun kv => kv.1 == key)).map (fun kv => kv.2)

/-- Embedding of build_apple_options (utils.py:137-166): iterate the options
in order; a recognized boolean key appends just its flag, a recognized
non-boolean key appends the flag and the stringified value, and an
unrecognized key appends nothing. -/
def build_apple_options : List (String × OptVal) → List String
  | [] => []
  | (key, v) :: rest =>
    match lookupFlag key with
    | some flag =>
      (match v with
       | OptVal.bool _ => [flag]
       | OptVal.str s => [flag, s]) ++ build_apple_options rest
    | none => build_apple_options rest

/-- The full argument vector built by handle_apple_download / start_apple
(downloader.py:143-148, 189-194): downloader path, mapped option flags, the
output-directory flag, and the trailing URL. -/
def apple_cmd (downloaderPath : String) (options : List (String × OptVal))
    (outputDir url : String) : List String :=
  downloaderPath :: (build_apple_options options ++ ["--output", outputDir, url])

/-- An option entry whose key is in the fixed map. -/
def recognized (kv : String × OptVal) : Bool :=
  (lookupFlag kv.1).isSome

/-! ## Metadata extraction (src/bot/providers/apple/metadata.py) -/

/-- The uniform metadata record produced by the extractor, with the default
values _default_metadata fills in. -/
structure Meta where
  title : String
  artist : String
  album : Option String := none
  duration : Nat := 0
  tracknumber : String := "0"
  genre : String := ""
  date : String := ""
  isrc : String := ""
  cover : Option String := none
  thumbnail : Option String := none
  explicit : String := ""
deriving Repr, DecidableEq

/-- Python stem.split(sep, 1): the parts before and after the first
occurrence of sep, or none when sep does not occur. -/
def splitFirstAux (sep : Char) : List Char → Option (List Char × List Char)
  | [] => none
  | c :: rest =>
    if c = sep then some ([], rest)
    else
      match splitFirstAux sep rest with
      | some (a, b) => some (c :: a, b)
      | none => none

/-- Split a character list on a separator character. -/
def splitChar (sep : Char) : List Char → List (List Char)
  | [] => [[]]
  | c :: rest =>
    let r := splitChar sep rest
    if c = sep then [] :: r
    else
      match r with
      | h :: t => (c :: h) :: t
      | [] => [[c]]

/-- pathlib name: the last non-empty path component. -/
def pathName (p : String) : String :=
  match ((splitChar '/' p.toList).filter (fun s => !s.isEmpty)).getLast? with
  | some cs => String.mk cs
  | none => ""

/-- pathlib stem: the name without its suffix, where the suffix starts at the
last dot only when that dot is neither the first nor the last character. -/
def pathStem (p : String) : String :=
  let name := pathName p
  let cs := name.toList
  match cs.reverse.findIdx? (fun c => c = '.') with
  | some k =>
    let i := cs.length - 1 - k
    if 0 < i ∧ i < cs.length - 1 then String.mk (cs.take i) else name
  | none => name

/-- Embedding of _default_metadata (metadata.py:172-211): parse
artist - title around the first separator of the filename stem when one is
present, else use the stem as title with a placeholder artist. -/
def default_metadata (file_path : String) : Meta :=
  match splitFirstAux '-' (pathStem file_path).toList with
  | some (a, b) =>
    { title := pyStrip (String.mk b), artist := pyStrip (String.mk a),
      album := some "Unknown Album" }
  | none =>
    { title := pathStem file_path, artist := "Unknown Artist",
      album := some "Unknown Album" }

/-- Embedding of extract_apple_metadata (metadata.py:12-30): the
per-extension mutagen handlers are the external tag-reading library, a black
box that either yields a parsed record or fails; every failure path (the
handler's own try/except and the top-level one) lands in _default_metadata,
so extraction is total. -/
def extract_apple_metadata (tagRead : String → Except String Meta)
    (file_path : String) : Meta :=
  match tagRead file_path with
  | Except.ok m => m
  | Except.error _ => default_metadata file_path

/-! ## Content classification and pipeline (src/bot/providers/apple/apple.py) -/

/-- Embedding of AppleMusicCore._determine_content_type (apple.py:95-103):
first-match substring tests on the URL, then the item count. -/
def determine_content_type (url : String) (items : List Meta) : String :=
  if containsSub "music-video" url then "video"
  else if containsSub "playlist" url then "playlist"
  else if containsSub "artist" url then "artist"
  else if items.length > 1 then "album" else "track"

/-- The processed-data dictionary _process_content returns beside the
content type. -/
structure BundleData where
  items : List Meta
  folderpath : String
  title : String
  artist : String
deriving Repr, DecidableEq

/-- Embedding of AppleMusicCore._process_content (apple.py:68-93) after the
workspace walk produced the extracted items, in walk order: an empty item
list raises ValueError, otherwise the bundle copies title (album preferred)
and artist from the first item. -/
def process_content (directory url : String) (items : List Meta) :
    Except String (String × BundleData) :=
  match items with
  | [] => Except.error "No valid media files found"
  | first :: _ =>
    Except.ok (determine_content_type url items,
      { items := items, folderpath := directory,
        title := first.album.getD first.title, artist := first.artist })

/-- Embedding of shutil.rmtree: with ignore_errors set, a failing removal is
absorbed instead of raised. -/
def rmtree (ignore_errors : Bool) (removeFails : Bool) : Except String Unit :=
  if removeFails && !ignore_errors then Except.error "rmtree failed"
  else Except.ok ()

/-- A try/except wrapper that logs the error and falls through. -/
def tryLogged (body : Except String Unit) : Except String Unit :=
  match body with
  | Except.ok _ => Except.ok ()
  | Except.error _ => Except.ok ()

/-- Embedding of cleanup_apple_files (utils.py:119-135): remove the per-user
directory when it exists, with errors ignored at the rmtree level and any
remaining exception absorbed by the surrounding try/except. -/
def cleanup_apple_files (dirExists removeFails : Bool) : Except String Unit :=
  tryLogged (if dirExists then rmtree true removeFails else Except.ok ())

/-- Observable steps of AppleMusicCore.process. -/
inductive Ev where
  | createDir | download | processContent | upload | cleanup
  | completionMsg | errorMsg
deriving Repr, DecidableEq

/-- Where a run of AppleMusicCore.process can first fail: the downloader
result (covering both a spawn failure and an acquisition error, which
run_apple_downloader reports as success=False), the media scan, and the
upload handler. -/
structure RunCond where
  downloadOk : Bool
  mediaFound : Bool
  uploadOk : Bool

/-- The except-clause of AppleMusicCore.process (apple.py:63-66): cleanup,
then the error message. -/
def exceptPath : List Ev := [Ev.cleanup, Ev.errorMsg]

/-- Embedding of the control flow of AppleMusicCore.process (apple.py:30-66)
for a valid URL: the try-body runs directory creation, download, content
processing, upload, cleanup and the completion message in order; the first
failing stage raises into the except clause, which runs cleanup and the
error message. -/
def appleProcess (c : RunCond) : List Ev :=
  if !c.downloadOk then
    [Ev.createDir, Ev.download] ++ exceptPath
  else if !c.mediaFound then
    [Ev.createDir, Ev.download, Ev.processContent] ++ exceptPath
  else if !c.uploadOk then
    [Ev.createDir, Ev.download, Ev.processContent, Ev.upload] ++ exceptPath
  else
    [Ev.createDir, Ev.download, Ev.processContent, Ev.upload, Ev.cleanup,
     Ev.completionMsg]

/-! ## Zip bundling (src/bot/providers/apple/utils.py 227-255) -/

/-- One entry of the os.walk(folder_path) stream: the visited directory as
segments relative to the walked folder (empty for the folder itself — os.walk
only ever yields the folder joined with nested subdirectory names), and the
file names inside it. -/
structure WalkEntry where
  rootSegs : List String
  files : List String
deriving Repr, DecidableEq

/-- Arcnames produced by the loop of create_apple_zip: for every walked
directory and every file in it, os.path.relpath(os.path.join(root, file),
folder_path), which is the directory's relative segments plus the file name. -/
def zipMembers (walk : List WalkEntry) : List (List String) :=
  walk.flatMap (fun e => e.files.map (fun f => e.rootSegs ++ [f]))

/-- Total number of files the walk visits. -/
def walkFileCount (walk : List WalkEntry) : Nat :=
  (walk.map (fun e => e.files.length)).sum

/-- A well-formed file-system name: non-empty, not the parent-directory
segment, and free of the path separator. -/
def validSeg (s : String) : Bool :=
  !(s == "") && !(s == "..") && !(s.toList.contains '/')

/-- Every directory segment and file name in the walk is a well-formed
file-system name. -/
def walkValid (walk : List WalkEntry) : Bool :=
  walk.all (fun e => e.rootSegs.all validSeg && e.files.all validSeg)

/-- Embedding of create_apple_zip (utils.py:227-255): the archive is named
from the metadata title and artist, and its members are every file under the
folder with the relative arcname computed by zipMembers. -/
def create_apple_zip (title artist : String) (walk : List WalkEntry) :
    String × List (List String) :=
  (title ++ " - " ++ artist ++ ".zip", zipMembers walk)

/-! ## Remote-sync upload (src/bot/helpers/uploader.py 288-324 and
src/bot/providers/apple/uploader.py 173-201, identical logic) -/

/-- Python str.replace for a non-empty pattern: replace every non-overlapping
occurrence, scanning left to right. The fuel argument only serves structural
termination and never runs out when it starts at the list's length, since
every step consumes at least one character. -/
def replaceAllAux (pat repl : List Char) : Nat → List Char → List Char
  | _, [] => []
  | 0, l => l
  | fuel + 1, c :: rest =>
    if pat.isPrefixOf (c :: rest) then
      match pat with
      | [] => c :: replaceAllAux pat repl fuel rest
      | _ :: patTail => repl ++ replaceAllAux pat repl fuel (rest.drop patTail.length)
    else c :: replaceAllAux pat repl fuel rest

/-- Python path.replace(basePath, "") on strings, for non-empty basePath. -/
def pyReplace (s pat repl : String) : String :=
  String.mk (replaceAllAux pat.toList repl.toList s.toList.length s.toList)

/-- Python s.lstrip(slash): drop every leading path separator. -/
def lstripSlash (s : String) : String :=
  String.mk (s.toList.dropWhile (fun c => c = '/'))

/-- The configuration the remote-sync uploader reads: Config.RCLONE_DEST and
Config.INDEX_LINK (none when unset or empty, matching Python truthiness), and
bot_set.link_options. -/
structure LinkSettings where
  rcloneDest : Option String
  indexLink : Option String
  linkOptions : String
deriving Repr, DecidableEq

/-- Embedding of rclone_upload (helpers/uploader.py:288-324; the Apple
variant apple_rclone_upload is textually identical): no configured remote
destination returns (None, None) at once; otherwise the relative path removes
every occurrence of the base path and every leading slash, the shareable link
comes from the external rclone link process (modelled by the runLink oracle,
with the invoked commands returned alongside), and the index link is the
configured base URL joined with the relative path. -/
def rclone_upload (cfg : LinkSettings) (runLink : String → Option String)
    (path basePath : String) : (Option String × Option String) × List String :=
  match cfg.rcloneDest with
  | none => ((none, none), [])
  | some dest =>
    let relativePath := lstripSlash (pyReplace path basePath "")
    let linkAndProcs :=
      if cfg.linkOptions = "RCLONE" ∨ cfg.linkOptions = "Both" then
        let cmd := "rclone link --config ./rclone.conf \"" ++ dest ++ "/"
          ++ relativePath ++ "\""
        ((runLink cmd).map pyStrip, [cmd])
      else (none, [])
    let indexLink :=
      if cfg.linkOptions = "Index" ∨ cfg.linkOptions = "Both" then
        match cfg.indexLink with
        | some base => some (base ++ "/" ++ relativePath)
        | none => none
      else none
    ((linkAndProcs.1, indexLink), linkAndProcs.2)

/-- Reading of the spec's sentence for the index path, stated for comparison
with the code: the input path stripped of the base-directory PREFIX and of
leading slashes. -/
def specIndexRelPath (path basePath : String) : String :=
  lstripSlash (String.mk (if basePath.toList.isPrefixOf path.toList then
    path.toList.drop basePath.toList.length else path.toList))

/-- A concrete media item used to instantiate classification theorems. -/
def mExample : Meta := { title := "t", artist := "a" }

/-- A concrete two-directory walk used to instantiate the zip theorems. -/
def walkExample : List WalkEntry :=
  [{ rootSegs := [], files := ["a.m4a"] },
   { rootSegs := ["Disc 1"], files := ["b.m4a", "c.m4a"] }]

/-!
## Theorems

Helper lemmas first, then for every claim its theorem, with its witness or
counterexample where one is called for.
-/

theorem stepMonitor_chunks (b : Bool) (st : MonState) (line : String) :
    (stepMonitor b st line).chunks = st.chunks ++ [pyStrip line] := by
  unfold stepMonitor
  cases b
  · simp
  · cases hp : parse_progress (pyStrip line) with
    | none => simp [hp]
    | some p =>
      by_cases hc : p ≠ 0 ∧ p ≠ st.lastProgress
      · simp [hp, hc]
      · simp [hp, hc]

theorem foldl_stepMonitor_chunks (b : Bool) (lines : List String) (st : MonState) :
    (lines.foldl (stepMonitor b) st).chunks = st.chunks ++ lines.map pyStrip := by
  induction lines generalizing st with
  | nil => simp
  | cons l rest ih =>
    simp only [List.foldl_cons, List.map_cons, ih, stepMonitor_chunks]
    simp [List.append_assoc]

theorem runMonitor_chunks (b : Bool) (lines : List String) :
    (runMonitor b lines).chunks = lines.map pyStrip := by
  unfold runMonitor
  simpa using foldl_stepMonitor_chunks b lines initMonState

theorem monitor_success_iff (b : Bool) (lines : List String)
    (stderrText : String) (code : Int) :
    (monitor_download_process b lines stderrText code).success = true ↔ code = 0 := by
  unfold monitor_download_process
  by_cases h : code = 0 <;> simp [h]

/-- Claim C1, counterexample: a line matching the spec's DRM fatal-error
pattern does not abort the job — with exit code 0 the monitor still reports
success, and the following line is still classified as progress and emits the
notification 5. -/
theorem C1_counterexample :
    isFatalLine "The Download is DRM protected" = true
    ∧ monitor_download_process true
        ["The Download is DRM protected", "Downloading 5% complete"] "" 0
      = { success := true, error := "" }
    ∧ (runMonitor true
        ["The Download is DRM protected", "Downloading 5% complete"]).emitted
      = [5] :=
  ⟨by decide, by decide, by decide⟩

/-- Claim C1, amended: the monitor performs no fatal-error pattern matching
on output lines. A line matching any of the spec's fatal patterns is treated
like every other line — when it carries no percentage token it only extends
the captured chunks — and the monitor's verdict is decided solely by the
post-stream exit status, so lines after a pattern-matching line can still be
classified as progress. -/
theorem C1_no_fatal_line_abort (b : Bool) (lines : List String)
    (stderrText : String) (exitCode : Int) (st : MonState) (line : String)
    (hfatal : isFatalLine line = true)
    (hnoprog : parse_progress (pyStrip line) = none) :
    ((monitor_download_process b lines stderrText exitCode).success = true
      ↔ exitCode = 0)
    ∧ stepMonitor b st line = { st with chunks := st.chunks ++ [pyStrip line] } := by
  refine ⟨monitor_success_iff b lines stderrText exitCode, ?_⟩
  unfold stepMonitor
  cases b
  · simp
  · simp [hnoprog]

/-- Claim C1, witness for the amended theorem at concrete inputs. -/
theorem C1_no_fatal_line_abort_witness :
    ((monitor_download_process true ["x"] "" 1).success = true ↔ (1 : Int) = 0)
    ∧ stepMonitor true initMonState "The Download is DRM protected"
      = { initMonState with
          chunks := initMonState.chunks
            ++ [pyStrip "The Download is DRM protected"] } :=
  C1_no_fatal_line_abort true ["x"] "" 1 initMonState
    "The Download is DRM protected" (by decide) (by decide)

/-- Claim C3, counterexample: the throttle compares against the last parsed
value, not the last emitted one — the line sequence 5%,7%,5% emits two
notifications both carrying 5, so a notification can repeat the last emitted
value. -/
theorem C3_counterexample :
    (runMonitor true ["5%", "7%", "5%"]).emitted = [5, 5]
    ∧ (runMonitor true ["5%", "7%", "5%"]).emitted ≠ [5] :=
  ⟨by decide, by decide⟩

/-- Claim C3, amended: a progress notification is emitted only when the newly
parsed percentage is a non-zero multiple of 5 that differs from the LAST
PARSED value (not the last emitted one); in particular the line sequence
1%,4%,5%,5%,9%,10% emits exactly the two notifications 5 and 10 in order. -/
theorem C3_throttled_progress (b : Bool) (st : MonState) (line : String) :
    ((stepMonitor b st line).emitted = st.emitted
     ∨ ∃ p, parse_progress (pyStrip line) = some p ∧ p % 5 = 0 ∧ p ≠ 0
         ∧ p ≠ st.lastProgress
         ∧ (stepMonitor b st line).emitted = st.emitted ++ [p])
    ∧ (runMonitor true ["1%", "4%", "5%", "5%", "9%", "10%"]).emitted
      = [5, 10] := by
  refine ⟨?_, by decide⟩
  unfold stepMonitor
  cases b
  · left; simp
  · cases hp : parse_progress (pyStrip line) with
    | none => left; simp [hp]
    | some p =>
      by_cases hc : p ≠ 0 ∧ p ≠ st.lastProgress
      · by_cases h5 : p % 5 = 0
        · right
          exact ⟨p, rfl, h5, hc.1, hc.2, by simp [hp, hc, update_progress, h5]⟩
        · left; simp [hp, hc, update_progress, h5]
      · left; simp [hp, hc]

/-- Claim C6: after the stream ends the monitor succeeds exactly when the
exit code is zero; a non-zero exit fails with the stripped stderr text, or
with the last five captured stdout lines when stderr strips to empty. -/
theorem C6_exit_status (b : Bool) (lines : List String) (stderrText : String)
    (code : Int) :
    ((monitor_download_process b lines stderrText code).success = true
      ↔ code = 0)
    ∧ (code ≠ 0 → pyStrip stderrText ≠ "" →
        monitor_download_process b lines stderrText code
          = { success := false, error := pyStrip stderrText })
    ∧ (code ≠ 0 → pyStrip stderrText = "" →
        monitor_download_process b lines stderrText code
          = { success := false,
              error := String.intercalate "\n" (lastN 5 (lines.map pyStrip)) }) := by
  refine ⟨monitor_success_iff b lines stderrText code, ?_, ?_⟩
  · intro hc hs
    unfold monitor_download_process
    simp [hc, hs]
  · intro hc hs
    unfold monitor_download_process
    simp [hc, hs, runMonitor_chunks]

/-- Claim C6, witness at concrete inputs covering both error-text sources. -/
theorem C6_exit_status_witness :
    monitor_download_process true ["a"] " boom " 1
      = { success := false, error := pyStrip " boom " }
    ∧ monitor_download_process true ["a"] "" 1
      = { success := false,
          error := String.intercalate "\n" (lastN 5 (["a"].map pyStrip)) } :=
  ⟨(C6_exit_status true ["a"] " boom " 1).2.1 (by decide) (by decide),
   (C6_exit_status true ["a"] "" 1).2.2 (by decide) (by decide)⟩

/-- Claim C9: a line whose percentage token parses to 0 never produces a
progress notification — Python truthiness makes a parsed 0 fall out of the
update branch — and such a line changes the monitor state exactly as a line
with no percentage token at all: only the captured chunks grow. -/
theorem C9_zero_progress (b : Bool) (st : MonState) (lzero lnone : String)
    (h0 : parse_progress (pyStrip lzero) = some 0)
    (hn : parse_progress (pyStrip lnone) = none) :
    stepMonitor b st lzero = { st with chunks := st.chunks ++ [pyStrip lzero] }
    ∧ stepMonitor b st lnone = { st with chunks := st.chunks ++ [pyStrip lnone] } := by
  constructor
  · unfold stepMonitor
    cases b
    · simp
    · simp [h0]
  · unfold stepMonitor
    cases b
    · simp
    · simp [hn]

/-- Claim C9, witness: the line 0% done parses to 0 and is handled exactly
like the token-free line noise. -/
theorem C9_zero_progress_witness :
    stepMonitor true initMonState "0% done"
      = { initMonState with
          chunks := initMonState.chunks ++ [pyStrip "0% done"] }
    ∧ stepMonitor true initMonState "noise"
      = { initMonState with chunks := initMonState.chunks ++ [pyStrip "noise"] } :=
  C9_zero_progress true initMonState "0% done" "noise" (by decide) (by decide)

theorem build_cons_none (key : String) (v : OptVal)
    (rest : List (String × OptVal)) (hf : lookupFlag key = none) :
    build_apple_options ((key, v) :: rest) = build_apple_options rest := by
  conv_lhs => unfold build_apple_options
  rw [hf]

theorem build_cons_some (key flag : String) (v : OptVal)
    (rest : List (String × OptVal)) (hf : lookupFlag key = some flag) :
    build_apple_options ((key, v) :: rest)
      = (match v with
         | OptVal.bool _ => [flag]
         | OptVal.str s => [flag, s]) ++ build_apple_options rest := by
  conv_lhs => unfold build_apple_options
  rw [hf]

theorem build_apple_options_filter (opts : List (String × OptVal)) :
    build_apple_options opts = build_apple_options (opts.filter recognized) := by
  induction opts with
  | nil => rfl
  | cons kv rest ih =>
    obtain ⟨key, v⟩ := kv
    cases hf : lookupFlag key with
    | none =>
      have hr : recognized (key, v) = false := by
        simp [recognized, hf]
      rw [List.filter_cons, hr, if_neg Bool.false_ne_true,
        build_cons_none key v rest hf, ih]
    | some flag =>
      have hr : recognized (key, v) = true := by
        simp [recognized, hf]
      rw [List.filter_cons, hr, if_pos rfl, build_cons_some key flag v rest hf,
        build_cons_some key flag v (rest.filter recognized) hf, ih]

/-- Claim C2: the argument vector is insensitive to unrecognized option keys.
Every option entry contributes flags only through the fixed key-to-flag map,
so the command line built for two options mappings that agree on their
recognized entries is identical, and filtering out unrecognized keys does not
change the built flag list at all. -/
theorem C2_unrecognized_keys_dropped (downloaderPath outputDir url : String)
    (opts1 opts2 : List (String × OptVal))
    (h : opts1.filter recognized = opts2.filter recognized) :
    apple_cmd downloaderPath opts1 outputDir url
      = apple_cmd downloaderPath opts2 outputDir url
    ∧ build_apple_options opts1 = build_apple_options (opts1.filter recognized) := by
  have hb : build_apple_options opts1 = build_apple_options opts2 := by
    rw [build_apple_options_filter opts1, h, ← build_apple_options_filter opts2]
  exact ⟨by unfold apple_cmd; rw [hb], build_apple_options_filter opts1⟩

/-- Claim C2, witness: an injected unrecognized key produces exactly the same
command line. -/
theorem C2_unrecognized_keys_dropped_witness :
    apple_cmd "downloader"
        [("aac", OptVal.bool true), ("evil-key", OptVal.str "--injected")]
        "/out" "https://music.apple.com/us/album/x/1"
      = apple_cmd "downloader" [("aac", OptVal.bool true)] "/out"
          "https://music.apple.com/us/album/x/1"
    ∧ build_apple_options
        [("aac", OptVal.bool true), ("evil-key", OptVal.str "--injected")]
      = build_apple_options
          ([("aac", OptVal.bool true),
            ("evil-key", OptVal.str "--injected")].filter recognized) :=
  C2_unrecognized_keys_dropped "downloader" "/out"
    "https://music.apple.com/us/album/x/1"
    [("aac", OptVal.bool true), ("evil-key", OptVal.str "--injected")]
    [("aac", OptVal.bool true)] (by decide)

/-- Claim C4, counterexample: the fallback record is not always non-empty —
for the file name -foo.m4a the stem starts with the separator, so the parsed
artist strips to the empty string. -/
theorem C4_counterexample :
    (extract_apple_metadata (fun _ => Except.error "corrupt tag")
        "-foo.m4a").artist = ""
    ∧ (extract_apple_metadata (fun _ => Except.error "corrupt tag")
        "-foo.m4a").title = "foo" :=
  ⟨by decide, by decide⟩

/-- Claim C4, amended: metadata extraction never raises — every tag-reading
failure is absorbed into the filename fallback, which parses artist - title
around the first separator of the stem (whitespace-stripped) when one is
present and otherwise uses the stem as title with a placeholder artist; the
resulting title and artist are non-empty provided the relevant filename parts
are non-blank (both sides of the first separator, or the stem itself),
but a blank side of the separator yields an empty field. -/
theorem C4_fallback (tagRead : String → Except String Meta) (p msg : String)
    (hfail : tagRead p = Except.error msg) :
    extract_apple_metadata tagRead p = default_metadata p
    ∧ (∀ a b, splitFirstAux '-' (pathStem p).toList = some (a, b) →
        (default_metadata p).artist = pyStrip (String.mk a)
        ∧ (default_metadata p).title = pyStrip (String.mk b))
    ∧ (splitFirstAux '-' (pathStem p).toList = none →
        (default_metadata p).artist = "Unknown Artist"
        ∧ (default_metadata p).title = pathStem p)
    ∧ (∀ a b, splitFirstAux '-' (pathStem p).toList = some (a, b) →
        pyStrip (String.mk a) ≠ "" → pyStrip (String.mk b) ≠ "" →
        (default_metadata p).artist ≠ "" ∧ (default_metadata p).title ≠ "")
    ∧ (splitFirstAux '-' (pathStem p).toList = none → pathStem p ≠ "" →
        (default_metadata p).artist ≠ "" ∧ (default_metadata p).title ≠ "") := by
  refine ⟨by unfold extract_apple_metadata; rw [hfail], ?_, ?_, ?_, ?_⟩
  · intro a b hs
    unfold default_metadata
    rw [hs]
    exact ⟨rfl, rfl⟩
  · intro hs
    unfold default_metadata
    rw [hs]
    exact ⟨rfl, rfl⟩
  · intro a b hs ha hb
    unfold default_metadata
    rw [hs]
    exact ⟨ha, hb⟩
  · intro hs hp
    unfold default_metadata
    rw [hs]
    show "Unknown Artist" ≠ "" ∧ pathStem p ≠ ""
    exact ⟨by decide, hp⟩

/-- Claim C4, witness: a concrete failing tag read lands in the fallback
record. -/
theorem C4_fallback_witness :
    extract_apple_metadata (fun _ => Except.error "corrupt tag")
        "Artist - Song.m4a"
      = default_metadata "Artist - Song.m4a" :=
  (C4_fallback (fun _ => Except.error "corrupt tag") "Artist - Song.m4a"
    "corrupt tag" rfl).1

/-- Claim C5: on the success path and on every failure path the claim
enumerates (spawn failure and acquisition error, both surfaced as a failed
downloader result, a no-media scan, and a failed delivery) the pipeline runs
workspace cleanup exactly once, and cleanup itself never raises — its result
is ok for every combination of a missing directory and a failing removal. -/
theorem C5_cleanup_exactly_once (c : RunCond) (dirExists removeFails : Bool) :
    (appleProcess c).count Ev.cleanup = 1
    ∧ cleanup_apple_files dirExists removeFails = Except.ok () := by
  obtain ⟨d, m, u⟩ := c
  cases d <;> cases m <;> cases u <;> cases dirExists <;> cases removeFails <;>
    exact ⟨by decide, rfl⟩

/-- Claim C7: content classification is a pure function of the URL string
and the item count, deciding in first-match order video, playlist, artist,
then album for more than one item and track for one; and classifying an
empty item set is the terminal no-media failure. -/
theorem C7_classification (url directory : String) (items other : List Meta) :
    (items.length = other.length →
      determine_content_type url items = determine_content_type url other)
    ∧ (containsSub "music-video" url = true →
        determine_content_type url items = "video")
    ∧ (containsSub "music-video" url = false →
        containsSub "playlist" url = true →
        determine_content_type url items = "playlist")
    ∧ (containsSub "music-video" url = false →
        containsSub "playlist" url = false →
        containsSub "artist" url = true →
        determine_content_type url items = "artist")
    ∧ (containsSub "music-video" url = false →
        containsSub "playlist" url = false →
        containsSub "artist" url = false →
        determine_content_type url items
          = (if items.length > 1 then "album" else "track"))
    ∧ process_content directory url [] = Except.error "No valid media files found" := by
  refine ⟨?_, ?_, ?_, ?_, ?_, rfl⟩
  · intro h
    unfold determine_content_type
    rw [h]
  · intro h1
    simp [determine_content_type, h1]
  · intro h1 h2
    simp [determine_content_type, h1, h2]
  · intro h1 h2 h3
    simp [determine_content_type, h1, h2, h3]
  · intro h1 h2 h3
    simp [determine_content_type, h1, h2, h3]

/-- Claim C7, witness: a playlist-shaped URL with five items classifies as
playlist, and an album-shaped URL classifies by item count. -/
theorem C7_classification_witness :
    determine_content_type "https://music.apple.com/us/playlist/mix/pl.123"
        (List.replicate 5 mExample) = "playlist"
    ∧ determine_content_type "https://music.apple.com/us/album/x/123" [mExample]
      = (if [mExample].length > 1 then "album" else "track")
    ∧ determine_content_type "https://music.apple.com/us/album/x/123"
        [mExample, mExample]
      = (if [mExample, mExample].length > 1 then "album" else "track") :=
  ⟨(C7_classification "https://music.apple.com/us/playlist/mix/pl.123" "d"
      (List.replicate 5 mExample) []).2.2.1 (by decide) (by decide),
   (C7_classification "https://music.apple.com/us/album/x/123" "d"
      [mExample] []).2.2.2.2.1 (by decide) (by decide) (by decide),
   (C7_classification "https://music.apple.com/us/album/x/123" "d"
      [mExample, mExample] []).2.2.2.2.1 (by decide) (by decide) (by decide)⟩

theorem zipMembers_length (walk : List WalkEntry) :
    (zipMembers walk).length = walkFileCount walk := by
  induction walk with
  | nil => rfl
  | cons e rest ih =>
    simp only [zipMembers, walkFileCount, List.flatMap_cons, List.length_append,
      List.length_map, List.map_cons, List.sum_cons] at ih ⊢
    omega

theorem validSeg_props (s : String) (h : validSeg s = true) :
    s ≠ "" ∧ s ≠ ".." ∧ s.toList.contains '/' = false := by
  unfold validSeg at h
  simp only [Bool.and_eq_true, Bool.not_eq_true', beq_eq_false_iff_ne, ne_eq,
    Bool.not_eq_true] at h
  exact ⟨h.1.1, h.1.2, h.2⟩

/-- Claim C8: archiving a bundle folder produces an archive named
"{title} - {artist}.zip" whose member list has exactly one entry per file
under the folder, and — when every file-system name in the walked folder is a
well-formed segment — every member path is a non-empty relative segment list
with no empty, parent-directory, or separator-carrying segment. -/
theorem C8_zip_bundle (title artist : String) (walk : List WalkEntry)
    (hv : walkValid walk = true) :
    (create_apple_zip title artist walk).1 = title ++ " - " ++ artist ++ ".zip"
    ∧ (create_apple_zip title artist walk).2.length = walkFileCount walk
    ∧ ∀ p ∈ (create_apple_zip title artist walk).2,
        p ≠ [] ∧ ∀ s ∈ p, s ≠ "" ∧ s ≠ ".." ∧ s.toList.contains '/' = false := by
  refine ⟨rfl, zipMembers_length walk, ?_⟩
  intro p hp
  simp only [create_apple_zip, zipMembers, List.mem_flatMap, List.mem_map] at hp
  obtain ⟨e, he, f, hf, rfl⟩ := hp
  have hve : (e.rootSegs.all validSeg && e.files.all validSeg) = true := by
    unfold walkValid at hv
    exact List.all_eq_true.mp hv e he
  rw [Bool.and_eq_true] at hve
  refine ⟨by simp, ?_⟩
  intro s hs
  rcases List.mem_append.mp hs with hmem | hmem
  · exact validSeg_props s (List.all_eq_true.mp hve.1 s hmem)
  · have : s = f := by simpa using hmem
    subst this
    exact validSeg_props s (List.all_eq_true.mp hve.2 s hf)

/-- Claim C8, witness at a concrete three-file walk. -/
theorem C8_zip_bundle_witness :
    (create_apple_zip "Album" "Artist" walkExample).1
      = "Album" ++ " - " ++ "Artist" ++ ".zip"
    ∧ (create_apple_zip "Album" "Artist" walkExample).2.length
      = walkFileCount walkExample :=
  ⟨(C8_zip_bundle "Album" "Artist" walkExample (by decide)).1,
   (C8_zip_bundle "Album" "Artist" walkExample (by decide)).2.1⟩

/-- Claim C10, counterexample: the relative path removes EVERY occurrence of
the base directory, not just the leading prefix — for a path that contains
the base directory a second time in the middle, the produced index link
differs from the spec's prefix-stripped reading. -/
theorem C10_counterexample :
    (rclone_upload
        { rcloneDest := some "gd:dest", indexLink := some "https://idx",
          linkOptions := "Index" }
        (fun _ => none)
        "/s/Apple Music/a/s/Apple Music/b.m4a" "/s/Apple Music").1.2
      = some "https://idx/a/b.m4a"
    ∧ "https://idx" ++ "/"
        ++ specIndexRelPath "/s/Apple Music/a/s/Apple Music/b.m4a"
          "/s/Apple Music"
      = "https://idx/a/s/Apple Music/b.m4a"
    ∧ ("https://idx/a/b.m4a" : String) ≠ "https://idx/a/s/Apple Music/b.m4a" :=
  ⟨by decide, by decide, by decide⟩

/-- Claim C10, amended: with no remote destination configured the uploader
returns (None, None) without invoking any external process; and the index
link, when produced, is the configured base URL joined with the input path
after removing every occurrence of the base directory (not only a leading
prefix — the two agree whenever the base occurs only as the prefix) and
stripping leading slashes. -/
theorem C10_rclone_links (cfg : LinkSettings) (runLink : String → Option String)
    (path basePath : String) :
    (cfg.rcloneDest = none →
      rclone_upload cfg runLink path basePath = ((none, none), []))
    ∧ (∀ dest base, cfg.rcloneDest = some dest → cfg.indexLink = some base →
        (cfg.linkOptions = "Index" ∨ cfg.linkOptions = "Both") →
        (rclone_upload cfg runLink path basePath).1.2
          = some (base ++ "/" ++ lstripSlash (pyReplace path basePath ""))) := by
  constructor
  · intro h
    unfold rclone_upload
    rw [h]
  · intro dest base hd hb hopt
    unfold rclone_upload
    rw [hd]
    simp only [hb]
    by_cases hr : cfg.linkOptions = "RCLONE" ∨ cfg.linkOptions = "Both"
    · simp [hr, hopt]
    · simp [hr, hopt]

/-- Claim C10, witness: both the unconfigured-destination branch and the
index-link shape at concrete inputs. -/
theorem C10_rclone_links_witness :
    rclone_upload
        { rcloneDest := none, indexLink := none, linkOptions := "RCLONE" }
        (fun _ => none) "/p" "/b"
      = ((none, none), [])
    ∧ (rclone_upload
        { rcloneDest := some "gd:dest", indexLink := some "https://idx",
          linkOptions := "Both" }
        (fun _ => none) "/b/x.m4a" "/b").1.2
      = some ("https://idx" ++ "/" ++ lstripSlash (pyReplace "/b/x.m4a" "/b" "")) :=
  ⟨(C10_rclone_links
      { rcloneDest := none, indexLink := none, linkOptions := "RCLONE" }
      (fun _ => none) "/p" "/b").1 rfl,
   (C10_rclone_links
      { rcloneDest := some "gd:dest", indexLink := some "https://idx",
        linkOptions := "Both" }
      (fun _ => none) "/b/x.m4a" "/b").2 "gd:dest" "https://idx" rfl rfl
     (Or.inr rfl)⟩

end AMDL
